import Mathlib

/-!
Verification of the retrieval-strategy orchestration in `src/app.py`
(Amazon Kids Product Search: BM25, vector, hybrid-RRF and full-pipeline
search against an Elasticsearch backend, with a Streamlit front end).

The search functions of `app.py` are embedded shallowly: each one builds
a request body (a Lean structure mirroring the JSON dict of the source),
optionally calls an embedding provider first, and dispatches the body to
a backend.  The two external collaborators (SentenceTransformer encoder,
Elasticsearch client) are parameters of the model: an `Env` supplies an
`encode` and a `search` function, each returning `Option` (with `none`
standing for the Python exception the external call can raise).
-/

namespace App

/-- The `multi_match` query object as built in `app.py` (lines 45-49,
85-88, 123-126).  `mtype` is the optional `"type"` key: `bm25_search`
sets it to `"best_fields"`, the hybrid and pipeline lexical sub-requests
omit it. -/
structure MultiMatch where
  query : String
  fields : List String
  mtype : Option String
deriving DecidableEq, Repr

/-- The `knn` query object (lines 62-67, 93-98, 131-136). -/
structure KnnQuery where
  field : String
  query_vector : List ℚ
  k : ℕ
  num_candidates : ℕ
deriving DecidableEq, Repr

/-- The `rrf` retriever of the hybrid and pipeline bodies (lines 80-102,
118-140): one `standard` lexical sub-retriever, one `knn` sub-retriever,
and a `rank_window_size`. -/
structure RrfRetriever where
  standardSub : MultiMatch
  knnSub : KnnQuery
  rank_window_size : ℕ
deriving DecidableEq, Repr

/-- The `text_similarity_reranker` retriever of the full pipeline
(lines 116-146): an inner `rrf` retriever plus the reranker fields. -/
structure RerankRetriever where
  inner : RrfRetriever
  field : String
  inference_id : String
  inference_text : String
  rank_window_size : ℕ
deriving DecidableEq, Repr

/-- A search request body as passed to `client.search` in `app.py`.
Each of the four strategies fills exactly the keys its Python dict has;
absent keys are `none`.  `sourceFields` is the `"_source"` projection. -/
structure SearchBody where
  size : ℕ
  query : Option MultiMatch
  knn : Option KnnQuery
  rrfRetriever : Option RrfRetriever
  rerankRetriever : Option RerankRetriever
  sourceFields : List String
deriving DecidableEq, Repr

/-- `INDEX_NAME = "amazon_2020_bbq"` (line 21). -/
def INDEX_NAME : String := "amazon_2020_bbq"

/-- Request body built by `bm25_search` (lines 39-53). -/
def bm25Body (query : String) (k : ℕ) : SearchBody :=
  { size := k
  , query := some
      { query := query
      , fields := ["product_name^3", "brand^2", "category^1.5", "document_text"]
      , mtype := some "best_fields" }
  , knn := none
  , rrfRetriever := none
  , rerankRetriever := none
  , sourceFields := ["product_name", "brand", "price", "category", "image_url"] }

/-- Request body built by `vector_search` (lines 56-70) once the query
vector has been computed. -/
def vectorBody (query_vector : List ℚ) (k : ℕ) : SearchBody :=
  { size := k
  , query := none
  , knn := some
      { field := "embedding"
      , query_vector := query_vector
      , k := k
      , num_candidates := 100 }
  , rrfRetriever := none
  , rerankRetriever := none
  , sourceFields := ["product_name", "brand", "price", "category", "image_url"] }

/-- Request body built by `hybrid_rrf_search` (lines 73-106) once the
query vector has been computed. -/
def hybridBody (query : String) (query_vector : List ℚ) (k : ℕ) : SearchBody :=
  { size := k
  , query := none
  , knn := none
  , rrfRetriever := some
      { standardSub :=
          { query := query
          , fields := ["product_name^3", "brand^2", "category^1.5", "document_text"]
          , mtype := none }
      , knnSub :=
          { field := "embedding"
          , query_vector := query_vector
          , k := 50
          , num_candidates := 100 }
      , rank_window_size := 100 }
  , rerankRetriever := none
  , sourceFields := ["product_name", "brand", "price", "category", "image_url"] }

/-- Request body built by `full_pipeline_search` (lines 109-150) once
the query vector has been computed. -/
def fullPipelineBody (query : String) (query_vector : List ℚ) (k : ℕ) : SearchBody :=
  { size := k
  , query := none
  , knn := none
  , rrfRetriever := none
  , rerankRetriever := some
      { inner :=
          { standardSub :=
              { query := query
              , fields := ["product_name^3", "brand^2", "category^1.5", "document_text"]
              , mtype := none }
          , knnSub :=
              { field := "embedding"
              , query_vector := query_vector
              , k := 50
              , num_candidates := 100 }
          , rank_window_size := 100 }
      , field := "document_text"
      , inference_id := "jina_reranker_v3"
      , inference_text := query
      , rank_window_size := 50 }
  , sourceFields := ["product_name", "brand", "price", "category", "image_url"] }

/-- Lower bound of the `num_results` slider: `st.sidebar.slider("Results", 3, 12, 5)`
(line 170). -/
def kMin : ℕ := 3

/-- Upper bound of the `num_results` slider (line 170). -/
def kMax : ℕ := 12

/-- The `_source` projection of a raw hit: the display fields the
strategies request.  Every field is optional, matching the `s.get(...)`
accesses of the rendering code (lines 209-211, 287-293): a field can be
absent from a stored document. -/
structure Src where
  product_name : Option String
  brand : Option String
  price : Option ℚ
  category : Option String
  image_url : Option String
deriving DecidableEq, Repr

/-- One element of `response["hits"]["hits"]`: a `_source` projection
plus a `_score` (line 293). -/
structure Hit where
  source : Src
  score : ℚ
deriving DecidableEq, Repr

/-- Observable calls a strategy makes to its external collaborators:
`model.encode(query)` and `client.search(index=INDEX_NAME, body=...)`. -/
inductive Effect where
  | encode (text : String)
  | search (body : SearchBody)
deriving DecidableEq, Repr

/-- Failure of an external call, per the spec's error taxonomy: the
encoder raising maps to `embeddingError`, the backend call raising maps
to `backendError`.  The source has no validation code, so no further
constructor arises from it. -/
inductive SearchError where
  | embeddingError
  | backendError
deriving DecidableEq, Repr

/-- The two external collaborators of `app.py`: `model` (the
SentenceTransformer, line 36) and `client` (the Elasticsearch client,
line 35).  `none` models the external call raising an exception. -/
structure Env where
  encode : String → Option (List ℚ)
  search : SearchBody → Option (List Hit)

/-- Modelled from the spec: the Retrieval Backend "returns an ordered
sequence of hits" and never returns more hits than the request's `size`
field asks for.  (The backend itself is Elasticsearch, an external
collaborator; its `size` contract is stated by the spec, not code of
this repository.) -/
def Env.wellBehaved (env : Env) : Prop :=
  ∀ body hits, env.search body = some hits → hits.length ≤ body.size

/-- `bm25_search` (lines 39-54): builds the lexical body and dispatches
it; no embedding call.  Returns the outcome and the trace of external
calls made. -/
def bm25_search (env : Env) (query : String) (k : ℕ) :
    Except SearchError (List Hit) × List Effect :=
  let body := bm25Body query k
  match env.search body with
  | some hits => (.ok hits, [.search body])
  | none => (.error .backendError, [.search body])

/-- `vector_search` (lines 56-71): encodes the query first
(`model.encode(query)`, line 57), then dispatches the knn body. -/
def vector_search (env : Env) (query : String) (k : ℕ) :
    Except SearchError (List Hit) × List Effect :=
  match env.encode query with
  | none => (.error .embeddingError, [.encode query])
  | some v =>
    let body := vectorBody v k
    match env.search body with
    | some hits => (.ok hits, [.encode query, .search body])
    | none => (.error .backendError, [.encode query, .search body])

/-- `hybrid_rrf_search` (lines 73-107): encodes the query first
(line 74), then dispatches the rrf-retriever body. -/
def hybrid_rrf_search (env : Env) (query : String) (k : ℕ) :
    Except SearchError (List Hit) × List Effect :=
  match env.encode query with
  | none => (.error .embeddingError, [.encode query])
  | some v =>
    let body := hybridBody query v k
    match env.search body with
    | some hits => (.ok hits, [.encode query, .search body])
    | none => (.error .backendError, [.encode query, .search body])

/-- `full_pipeline_search` (lines 109-151): encodes the query first
(line 110), then dispatches the reranker body. -/
def full_pipeline_search (env : Env) (query : String) (k : ℕ) :
    Except SearchError (List Hit) × List Effect :=
  match env.encode query with
  | none => (.error .embeddingError, [.encode query])
  | some v =>
    let body := fullPipelineBody query v k
    match env.search body with
    | some hits => (.ok hits, [.encode query, .search body])
    | none => (.error .backendError, [.encode query, .search body])

/-- The comparison-mode block (lines 197-247).  The four strategy calls
run sequentially (col1 through col4) with no exception handling: an
exception from one call propagates and ends the script run, so the
strategies after it never run.  The first component collects the
(strategy name, hits) pairs of the calls that completed before the
failure (these columns were already rendered); the second component is
the unhandled error, tagged with the strategy whose call raised it
(Streamlit displays the traceback, which identifies the failing call),
or `none` when all four succeeded. -/
def comparisonRun (env : Env) (query : String) (k : ℕ) :
    List (String × List Hit) × Option (String × SearchError) :=
  match (bm25_search env query k).1 with
  | .error e => ([], some ("BM25", e))
  | .ok r1 =>
    match (vector_search env query k).1 with
    | .error e => ([("BM25", r1)], some ("Vector", e))
    | .ok r2 =>
      match (hybrid_rrf_search env query k).1 with
      | .error e => ([("BM25", r1), ("Vector", r2)], some ("Hybrid", e))
      | .ok r3 =>
        match (full_pipeline_search env query k).1 with
        | .error e =>
            ([("BM25", r1), ("Vector", r2), ("Hybrid", r3)], some ("Pipeline", e))
        | .ok r4 =>
            ([("BM25", r1), ("Vector", r2), ("Hybrid", r3), ("Pipeline", r4)], none)

/-- The guard deciding whether a search is dispatched at all:
`if comparison_mode and query:` (line 197) and
`elif not comparison_mode and query and search_method:` (line 250).
Python string truthiness: a string is truthy iff it is non-empty, so a
whitespace-only query passes the guard. -/
def uiDispatches (query : String) : Bool :=
  query ≠ ""

/-- Brand rendering (line 290):
`s.get('brand', 'N/A') if s.get('brand') != 'nan' else 'N/A'`. -/
def renderBrand (brand : Option String) : String :=
  if brand = some "nan" then "N/A" else brand.getD "N/A"

/-- Category rendering (line 292):
`s.get('category', 'N/A')[:40] if s.get('category') != 'nan' else 'N/A'`. -/
def renderCategory (category : Option String) : String :=
  if category = some "nan" then "N/A" else (category.getD "N/A").take 40

/-- The numeric price displayed: `s.get('price', 0)` (lines 211, 222,
233, 244, 291). -/
def priceValue (price : Option ℚ) : ℚ :=
  price.getD 0

/-- Python's `:.2f` fixed-point formatting for the non-negative prices
the app displays: round to cents, print with exactly two decimals. -/
def format2f (q : ℚ) : String :=
  ((round (q * 100)).toNat / 100).repr ++ "." ++
    ((round (q * 100)).toNat % 100 / 10).repr ++
    ((round (q * 100)).toNat % 100 % 10).repr

/-- Price rendering, `f"${s.get('price', 0):.2f}"` (lines 211, 222,
233, 244, and the `**Price:**` variant on 291). -/
def priceCaption (price : Option ℚ) : String :=
  "$" ++ format2f (priceValue price)

/-- Split a character list at the first `'^'`: the part before it and
the part after it. -/
def caretSplit : List Char → List Char × List Char
  | [] => ([], [])
  | c :: cs =>
    if c = '^' then ([], cs)
    else
      let p := caretSplit cs
      (c :: p.1, p.2)

/-- Split a character list at the first `'.'`: integer part and
fractional part (empty when there is no dot). -/
def dotSplit : List Char → List Char × List Char
  | [] => ([], [])
  | c :: cs =>
    if c = '.' then ([], cs)
    else
      let p := dotSplit cs
      (c :: p.1, p.2)

/-- Value of a decimal digit string. -/
def digitsVal (cs : List Char) : ℕ :=
  cs.foldl (fun a c => a * 10 + (c.toNat - 48)) 0

/-- Value of a decimal number literal such as `"1.5"` as a rational. -/
def decVal (cs : List Char) : ℚ :=
  let p := dotSplit cs
  (digitsVal p.1 : ℚ) + (digitsVal p.2 : ℚ) / ((10 : ℚ) ^ p.2.length)

/-- Modelled from the spec: Elasticsearch's `"field^boost"` syntax in
`multi_match` field lists — `"product_name^3"` means field
`product_name` with boost 3; a field spec without a caret (such as
`"document_text"`) has the default boost 1. -/
def fieldBoost (s : String) : String × ℚ :=
  if s.toList.contains '^' then
    let p := caretSplit s.toList
    (String.mk p.1, decVal p.2)
  else (s, 1)

/-- Modelled from the spec: Elasticsearch's `multi_match` combination
type defaults to `best_fields` when the request omits the `"type"` key,
as the hybrid and pipeline lexical sub-requests do. -/
def MultiMatch.effectiveType (m : MultiMatch) : String :=
  m.mtype.getD "best_fields"

/-- Modelled from the spec: under `best_fields` combination "the single
best-matching field per document dominates scoring rather than summing
all field scores" — the document's lexical score is the maximum of the
per-field contributions, not their sum. -/
def bestFieldsScore (contribs : List ℚ) : ℚ :=
  contribs.foldr max 0

/-- A sample well-formed hit used by the concrete environments below. -/
def hit0 : Hit :=
  { source :=
      { product_name := some "Hot Wheels Track Builder"
      , brand := some "Hot Wheels"
      , price := some 20
      , category := some "Toys"
      , image_url := none }
  , score := 1 }

/-- A concrete healthy environment: the encoder always returns a
vector, the backend returns `size`-many copies of `hit0` (fewer when
`size` exceeds its 20 stored documents). -/
def envOk : Env :=
  { encode := fun _ => some [1]
  , search := fun body => some ((List.replicate 20 hit0).take body.size) }

/-- A concrete environment simulating a backend outage for the Vector
call only: any body carrying a top-level `knn` key (exactly the bodies
`vector_search` builds) fails; all other bodies succeed. -/
def envVecFail : Env :=
  { encode := fun _ => some [1]
  , search := fun body =>
      if body.knn.isSome then none
      else some ((List.replicate 20 hit0).take body.size) }

/-- Every member of a list is at most its `foldr max 0`. -/
theorem mem_le_foldr_max (l : List ℚ) : ∀ c ∈ l, c ≤ l.foldr max 0 := by
  induction l with
  | nil => intro c hc; cases hc
  | cons a l ih =>
    intro c hc
    rcases List.mem_cons.mp hc with h | h
    · subst h; exact le_max_left _ _
    · exact le_trans (ih c h) (le_max_right _ _)

/-- `envOk` satisfies the backend's `size` contract. -/
theorem envOk_wellBehaved : envOk.wellBehaved := by
  intro body hits h
  simp only [envOk] at h
  cases h
  simp

/-- A BM25 search succeeds exactly when the backend accepts the lexical
body, and returns the backend's hits unchanged. -/
theorem bm25_search_ok_iff (env : Env) (q : String) (k : ℕ) (hits : List Hit) :
    (bm25_search env q k).1 = .ok hits ↔
      env.search (bm25Body q k) = some hits := by
  unfold bm25_search
  rcases hs : env.search (bm25Body q k) with _ | l <;> simp [hs]

/-- A vector search succeeds exactly when the encoder produced some
vector and the backend accepted the knn body built from it. -/
theorem vector_search_ok_iff (env : Env) (q : String) (k : ℕ) (hits : List Hit) :
    (vector_search env q k).1 = .ok hits ↔
      ∃ v, env.encode q = some v ∧ env.search (vectorBody v k) = some hits := by
  unfold vector_search
  rcases he : env.encode q with _ | v
  · simp [he]
  · rcases hs : env.search (vectorBody v k) with _ | l <;> simp [he, hs]

/-- A hybrid search succeeds exactly when the encoder produced some
vector and the backend accepted the rrf body built from it. -/
theorem hybrid_search_ok_iff (env : Env) (q : String) (k : ℕ) (hits : List Hit) :
    (hybrid_rrf_search env q k).1 = .ok hits ↔
      ∃ v, env.encode q = some v ∧ env.search (hybridBody q v k) = some hits := by
  unfold hybrid_rrf_search
  rcases he : env.encode q with _ | v
  · simp [he]
  · rcases hs : env.search (hybridBody q v k) with _ | l <;> simp [he, hs]

/-- A full-pipeline search succeeds exactly when the encoder produced
some vector and the backend accepted the reranker body built from it. -/
theorem pipeline_search_ok_iff (env : Env) (q : String) (k : ℕ) (hits : List Hit) :
    (full_pipeline_search env q k).1 = .ok hits ↔
      ∃ v, env.encode q = some v ∧
        env.search (fullPipelineBody q v k) = some hits := by
  unfold full_pipeline_search
  rcases he : env.encode q with _ | v
  · simp [he]
  · rcases hs : env.search (fullPipelineBody q v k) with _ | l <;> simp [he, hs]

/-- C1: every strategy's request body carries `size = k`, and under the
backend's `size` contract every successful search returns at most `k`
hits, whatever the query, embedding vector, and `k`. -/
theorem all_strategies_size_eq_k_and_length_le_k
    (env : Env) (q : String) (v : List ℚ) (k : ℕ) (hw : env.wellBehaved) :
    (bm25Body q k).size = k ∧ (vectorBody v k).size = k ∧
    (hybridBody q v k).size = k ∧ (fullPipelineBody q v k).size = k ∧
    (∀ hits, (bm25_search env q k).1 = .ok hits → hits.length ≤ k) ∧
    (∀ hits, (vector_search env q k).1 = .ok hits → hits.length ≤ k) ∧
    (∀ hits, (hybrid_rrf_search env q k).1 = .ok hits → hits.length ≤ k) ∧
    (∀ hits, (full_pipeline_search env q k).1 = .ok hits → hits.length ≤ k) := by
  refine ⟨rfl, rfl, rfl, rfl, ?_, ?_, ?_, ?_⟩
  · intro hits hok
    exact hw _ _ ((bm25_search_ok_iff env q k hits).mp hok)
  · intro hits hok
    obtain ⟨w, _, hs⟩ := (vector_search_ok_iff env q k hits).mp hok
    exact hw _ _ hs
  · intro hits hok
    obtain ⟨w, _, hs⟩ := (hybrid_search_ok_iff env q k hits).mp hok
    exact hw _ _ hs
  · intro hits hok
    obtain ⟨w, _, hs⟩ := (pipeline_search_ok_iff env q k hits).mp hok
    exact hw _ _ hs

/-- C1 witness: the theorem applied to the concrete healthy environment
at `q = "Hot Wheels"`, `v = [1]`, `k = 5`. -/
theorem all_strategies_size_eq_k_and_length_le_k_witness :
    App.envOk.wellBehaved ∧ (App.bm25Body "Hot Wheels" 5).size = 5 :=
  ⟨envOk_wellBehaved,
    (all_strategies_size_eq_k_and_length_le_k envOk "Hot Wheels" [1] 5
      envOk_wellBehaved).1⟩

/-- C10: in both the hybrid and the full-pipeline bodies, the inner knn
sub-retriever always asks for `k = 50` neighbors over
`num_candidates = 100`, whatever the requested final result count; only
the outer `size` field varies with it. -/
theorem inner_knn_constants_independent_of_k
    (q : String) (v : List ℚ) (k : ℕ) :
    ((hybridBody q v k).rrfRetriever.map
        (fun r => (r.knnSub.k, r.knnSub.num_candidates))) = some (50, 100) ∧
    ((fullPipelineBody q v k).rerankRetriever.map
        (fun r => (r.inner.knnSub.k, r.inner.knnSub.num_candidates))) =
      some (50, 100) ∧
    (hybridBody q v k).size = k ∧ (fullPipelineBody q v k).size = k :=
  ⟨rfl, rfl, rfl, rfl⟩

/-- C4: for every `k` the slider can produce (3 through 12), the hybrid
body's rrf `rank_window_size` is at least `k`, and the full-pipeline
body's reranker `rank_window_size` is at most the `rank_window_size` of
the inner rrf stage feeding it. -/
theorem fusion_window_ge_k_and_rerank_window_le_fusion_window
    (q : String) (v : List ℚ) (k : ℕ) (_hmin : kMin ≤ k) (hmax : k ≤ kMax) :
    (∀ r, (hybridBody q v k).rrfRetriever = some r →
      k ≤ r.rank_window_size) ∧
    (∀ r, (fullPipelineBody q v k).rerankRetriever = some r →
      r.rank_window_size ≤ r.inner.rank_window_size) := by
  constructor
  · intro r hr
    cases hr
    exact le_trans hmax (by norm_num [kMax])
  · intro r hr
    cases hr
    norm_num

/-- C4 witness: the theorem applied at `k = 5`. -/
theorem fusion_window_ge_k_and_rerank_window_le_fusion_window_witness :
    App.kMin ≤ 5 ∧ (5 : ℕ) ≤ App.kMax ∧
    (∀ r, (App.hybridBody "toys" [1] 5).rrfRetriever = some r →
      5 ≤ r.rank_window_size) :=
  ⟨by norm_num [kMin], by norm_num [kMax],
    (fusion_window_ge_k_and_rerank_window_le_fusion_window "toys" [1] 5
      (by norm_num [kMin]) (by norm_num [kMax])).1⟩

/-- C6 counterexample: the claim describes the vector strategy's
candidate pool as sized by a 10-times-`k` policy capped at a fixed
ceiling, which forces pool ≤ 10·k; at the valid `k = 3` the built body
requests `num_candidates = 100 > 30`, so no such policy produces it. -/
theorem vector_pool_not_ten_times_k :
    ((vectorBody [1] 3).knn.map KnnQuery.num_candidates = some 100) ∧
    ¬(100 ≤ 10 * 3) := by
  constructor
  · rfl
  · norm_num

/-- C6 amended: the vector body's candidate pool is the fixed constant
100, independent of `k`; it is strictly greater than every `k` the
slider can produce, and in particular at `k = 5` the requested pool is
100 ≥ 50. -/
theorem vector_pool_constant_gt_k
    (v : List ℚ) (k : ℕ) (hmax : k ≤ kMax) :
    (vectorBody v k).knn.map KnnQuery.num_candidates = some 100 ∧
    (∀ c, (vectorBody v k).knn.map KnnQuery.num_candidates = some c →
      k < c) := by
  refine ⟨rfl, ?_⟩
  intro c hc
  cases hc
  exact lt_of_le_of_lt hmax (by norm_num [kMax])

/-- C6 amended witness: the theorem applied at `k = 5`; the pool 100 is
at least 50 there. -/
theorem vector_pool_constant_gt_k_witness :
    (5 : ℕ) ≤ App.kMax ∧
    (App.vectorBody [1] 5).knn.map App.KnnQuery.num_candidates = some 100 ∧
    (50 : ℕ) ≤ 100 :=
  ⟨by norm_num [kMax],
    (vector_pool_constant_gt_k [1] 5 (by norm_num [kMax])).1,
    by norm_num⟩

/-- Whether an effect is an embedding-provider call. -/
def Effect.isEncode : Effect → Bool
  | .encode _ => true
  | .search _ => false

/-- A concrete environment whose encoder always fails and whose backend
behaves like `envOk`. -/
def envEncFail : Env :=
  { encode := fun _ => none
  , search := fun body => some ((List.replicate 20 hit0).take body.size) }

/-- C7: the BM25 strategy never calls the embedding provider (its result
is unchanged under any swap of the encoder, and its effect trace holds
no encode call), while the vector, hybrid and pipeline strategies encode
first: when the encoder fails they fail with `embeddingError` having
made no backend call, and when it succeeds their trace is the encode
call followed by the single backend call. -/
theorem embedding_only_for_vector_hybrid_pipeline
    (env : Env) (e₁ e₂ : String → Option (List ℚ))
    (s : SearchBody → Option (List Hit)) (q : String) (k : ℕ) :
    (bm25_search { encode := e₁, search := s } q k =
       bm25_search { encode := e₂, search := s } q k) ∧
    (∀ eff ∈ (bm25_search env q k).2, eff.isEncode = false) ∧
    (env.encode q = none →
      (vector_search env q k).1 = .error .embeddingError ∧
      (vector_search env q k).2 = [.encode q] ∧
      (hybrid_rrf_search env q k).1 = .error .embeddingError ∧
      (hybrid_rrf_search env q k).2 = [.encode q] ∧
      (full_pipeline_search env q k).1 = .error .embeddingError ∧
      (full_pipeline_search env q k).2 = [.encode q]) ∧
    (∀ v, env.encode q = some v →
      (vector_search env q k).2 = [.encode q, .search (vectorBody v k)] ∧
      (hybrid_rrf_search env q k).2 =
        [.encode q, .search (hybridBody q v k)] ∧
      (full_pipeline_search env q k).2 =
        [.encode q, .search (fullPipelineBody q v k)]) := by
  refine ⟨rfl, ?_, ?_, ?_⟩
  · intro eff heff
    unfold bm25_search at heff
    rcases hs : env.search (bm25Body q k) with _ | l <;>
      simp [hs] at heff <;> simp [heff, Effect.isEncode]
  · intro he
    refine ⟨?_, ?_, ?_, ?_, ?_, ?_⟩ <;>
      simp [vector_search, hybrid_rrf_search, full_pipeline_search, he]
  · intro v hv
    refine ⟨?_, ?_, ?_⟩ <;>
      [ (rcases hs : env.search (vectorBody v k) with _ | l)
      ; (rcases hs : env.search (hybridBody q v k) with _ | l)
      ; (rcases hs : env.search (fullPipelineBody q v k) with _ | l)] <;>
      simp [vector_search, hybrid_rrf_search, full_pipeline_search, hv, hs]

/-- C7 witness: the theorem applied to the encoder-outage environment at
`q = "toys"`, `k = 5`: the vector strategy fails with the embedding
error and made no backend call, while BM25 is unaffected. -/
theorem embedding_only_for_vector_hybrid_pipeline_witness :
    App.envEncFail.encode "toys" = none ∧
    (App.vector_search App.envEncFail "toys" 5).1 =
      .error .embeddingError :=
  ⟨rfl,
    ((embedding_only_for_vector_hybrid_pipeline envEncFail
        (fun _ => some [1]) (fun _ => none) envEncFail.search
        "toys" 5).2.2.1 rfl).1⟩

/-- C2 counterexample: with a backend outage affecting only the Vector
body, the comparison block yields results for BM25 alone together with
the unhandled Vector error: the Hybrid and Pipeline calls, each of which
would have succeeded, never run, so the harness does not return results
for the three unaffected strategies. -/
theorem comparison_aborts_after_vector_failure :
    (comparisonRun envVecFail "toys" 5).1 =
      [("BM25", List.replicate 5 hit0)] ∧
    (comparisonRun envVecFail "toys" 5).2 =
      some ("Vector", .backendError) ∧
    (hybrid_rrf_search envVecFail "toys" 5).1 =
      .ok (List.replicate 5 hit0) ∧
    (full_pipeline_search envVecFail "toys" 5).1 =
      .ok (List.replicate 5 hit0) ∧
    (comparisonRun envVecFail "toys" 5).1.length ≠ 3 :=
  ⟨rfl, rfl, rfl, rfl, by decide⟩

/-- C2 amended: when the BM25 call succeeds and the Vector call fails,
the comparison block stops after the failure: it produces the BM25
results it already rendered, plus the propagated error tagged with the
strategy that raised it, and never runs Hybrid or Pipeline. -/
theorem comparison_propagates_first_failure
    (env : Env) (q : String) (k : ℕ) (r1 : List Hit) (e : SearchError)
    (h1 : (bm25_search env q k).1 = .ok r1)
    (h2 : (vector_search env q k).1 = .error e) :
    comparisonRun env q k = ([("BM25", r1)], some ("Vector", e)) := by
  unfold comparisonRun
  simp only [h1, h2]

/-- C2 amended witness: the theorem applied to the Vector-outage
environment at `q = "toys"`, `k = 5`. -/
theorem comparison_propagates_first_failure_witness :
    (App.bm25_search App.envVecFail "toys" 5).1 =
      .ok (List.replicate 5 App.hit0) ∧
    (App.vector_search App.envVecFail "toys" 5).1 =
      .error .backendError ∧
    App.comparisonRun App.envVecFail "toys" 5 =
      ([("BM25", List.replicate 5 App.hit0)],
        some ("Vector", .backendError)) :=
  ⟨rfl, rfl,
    comparison_propagates_first_failure envVecFail "toys" 5
      (List.replicate 5 hit0) .backendError rfl rfl⟩

/-- C3 counterexample: a whitespace-only query passes the UI guard
(Python string truthiness) and `bm25_search` dispatches it to the
backend and succeeds; `k = 0` is likewise dispatched with `size = 0`
and succeeds.  No strategy ever produces an invalid-request failure. -/
theorem no_invalid_request_validation :
    uiDispatches " " = true ∧
    (bm25_search envOk " " 5).1 = .ok (List.replicate 5 hit0) ∧
    (bm25_search envOk " " 5).2 = [.search (bm25Body " " 5)] ∧
    (bm25_search envOk "toys" 0).1 = .ok [] ∧
    (vector_search envOk " " 0).1 = .ok [] :=
  ⟨rfl, rfl, rfl, rfl, rfl⟩

/-- C3 amended: the code performs no input validation at all, for any
of the four strategies: each one dispatches whatever query and `k` it
is given (the BM25 trace is always exactly the backend call; the three
embedding strategies dispatch their body whenever the encoder answers),
and a backend acceptance always becomes a success result — never an
invalid-request failure; the only guard is the UI skipping the search
when the query string is empty, which whitespace-only queries pass. -/
theorem searches_dispatch_without_validation
    (env : Env) (q : String) (k : ℕ) :
    ((bm25_search env q k).2 = [.search (bm25Body q k)]) ∧
    (∀ hits, env.search (bm25Body q k) = some hits →
      (bm25_search env q k).1 = .ok hits) ∧
    (∀ v, env.encode q = some v →
      (vector_search env q k).2 = [.encode q, .search (vectorBody v k)] ∧
      (hybrid_rrf_search env q k).2 =
        [.encode q, .search (hybridBody q v k)] ∧
      (full_pipeline_search env q k).2 =
        [.encode q, .search (fullPipelineBody q v k)]) ∧
    (∀ v, env.encode q = some v →
      (∀ hits, env.search (vectorBody v k) = some hits →
        (vector_search env q k).1 = .ok hits) ∧
      (∀ hits, env.search (hybridBody q v k) = some hits →
        (hybrid_rrf_search env q k).1 = .ok hits) ∧
      (∀ hits, env.search (fullPipelineBody q v k) = some hits →
        (full_pipeline_search env q k).1 = .ok hits)) ∧
    (uiDispatches q = true ↔ q ≠ "") := by
  refine ⟨?_, ?_, ?_, ?_, ?_⟩
  · unfold bm25_search
    rcases h : env.search (bm25Body q k) with _ | l <;> simp [h]
  · intro hits hs
    exact (bm25_search_ok_iff env q k hits).mpr hs
  · intro v hv
    refine ⟨?_, ?_, ?_⟩ <;>
      [ (rcases hs : env.search (vectorBody v k) with _ | l)
      ; (rcases hs : env.search (hybridBody q v k) with _ | l)
      ; (rcases hs : env.search (fullPipelineBody q v k) with _ | l)] <;>
      simp [vector_search, hybrid_rrf_search, full_pipeline_search, hv, hs]
  · intro v hv
    refine ⟨?_, ?_, ?_⟩ <;> intro hits hs
    · exact (vector_search_ok_iff env q k hits).mpr ⟨v, hv, hs⟩
    · exact (hybrid_search_ok_iff env q k hits).mpr ⟨v, hv, hs⟩
    · exact (pipeline_search_ok_iff env q k hits).mpr ⟨v, hv, hs⟩
  · simp [uiDispatches]

/-- C3 amended witness: the theorem applied to the healthy environment
at the whitespace query and `k = 0`: all four strategies dispatch and
succeed there. -/
theorem searches_dispatch_without_validation_witness :
    App.envOk.encode " " = some [1] ∧
    App.envOk.search (App.bm25Body " " 0) = some [] ∧
    (App.bm25_search App.envOk " " 0).1 = .ok [] ∧
    (App.vector_search App.envOk " " 0).1 = .ok [] ∧
    (App.hybrid_rrf_search App.envOk " " 0).1 = .ok [] ∧
    (App.full_pipeline_search App.envOk " " 0).1 = .ok [] :=
  ⟨rfl, rfl,
    (searches_dispatch_without_validation envOk " " 0).2.1 [] rfl,
    ((searches_dispatch_without_validation envOk " " 0).2.2.2.1 [1] rfl).1
      [] rfl,
    ((searches_dispatch_without_validation envOk " " 0).2.2.2.1 [1] rfl).2.1
      [] rfl,
    ((searches_dispatch_without_validation envOk " " 0).2.2.2.1 [1] rfl).2.2
      [] rfl⟩

/-- `"product_name^3"` parses to boost 3. -/
theorem fieldBoost_product_name :
    fieldBoost "product_name^3" = ("product_name", 3) := by
  have h : fieldBoost "product_name^3" =
      ("product_name", ((3:ℕ) : ℚ) + ((0:ℕ) : ℚ) / (10:ℚ) ^ (0:ℕ)) := rfl
  rw [h]; norm_num

/-- `"brand^2"` parses to boost 2. -/
theorem fieldBoost_brand : fieldBoost "brand^2" = ("brand", 2) := by
  have h : fieldBoost "brand^2" =
      ("brand", ((2:ℕ) : ℚ) + ((0:ℕ) : ℚ) / (10:ℚ) ^ (0:ℕ)) := rfl
  rw [h]; norm_num

/-- `"category^1.5"` parses to boost 3/2. -/
theorem fieldBoost_category : fieldBoost "category^1.5" = ("category", 3/2) := by
  have h : fieldBoost "category^1.5" =
      ("category", ((1:ℕ) : ℚ) + ((5:ℕ) : ℚ) / (10:ℚ) ^ (1:ℕ)) := rfl
  rw [h]; norm_num

/-- `"document_text"` has the default boost 1. -/
theorem fieldBoost_document_text :
    fieldBoost "document_text" = ("document_text", 1) := rfl

/-- C5: the three lexical sub-requests carry the identical field list;
it parses to the boosts product_name 3 > brand 2 > category 3/2 >
document_text 1, strictly decreasing in that order; all three requests
combine fields as `best_fields` (explicit in the BM25 body, the backend
default in the other two); and under best_fields combination the
document's lexical score dominates every single per-field contribution
rather than being their sum. -/
theorem lexical_fields_identical_boosts_ordered
    (q : String) (v : List ℚ) (k : ℕ) :
    ((bm25Body q k).query.map MultiMatch.fields =
       (hybridBody q v k).rrfRetriever.map (fun r => r.standardSub.fields)) ∧
    ((bm25Body q k).query.map MultiMatch.fields =
       (fullPipelineBody q v k).rerankRetriever.map
         (fun r => r.inner.standardSub.fields)) ∧
    ((bm25Body q k).query.map (fun m => m.fields.map fieldBoost) =
       some [("product_name", 3), ("brand", 2), ("category", 3/2),
             ("document_text", 1)]) ∧
    ((3:ℚ) > 2 ∧ (2:ℚ) > 3/2 ∧ (3/2:ℚ) > 1) ∧
    ((bm25Body q k).query.map MultiMatch.effectiveType =
       some "best_fields") ∧
    ((hybridBody q v k).rrfRetriever.map
        (fun r => r.standardSub.effectiveType) = some "best_fields") ∧
    ((fullPipelineBody q v k).rerankRetriever.map
        (fun r => r.inner.standardSub.effectiveType) =
      some "best_fields") ∧
    (∀ contribs : List ℚ, ∀ c ∈ contribs, c ≤ bestFieldsScore contribs) := by
  refine ⟨rfl, rfl, ?_, by norm_num, rfl, rfl, rfl, mem_le_foldr_max⟩
  simp [bm25Body, fieldBoost_product_name, fieldBoost_brand,
    fieldBoost_category, fieldBoost_document_text]

/-- C5 witness: the dominance conjunct applied to a concrete
contribution list: the combined best_fields score of [3, 1] is at
least the member 3. -/
theorem lexical_fields_identical_boosts_ordered_witness :
    (3:ℚ) ∈ [(3:ℚ), 1] ∧ (3:ℚ) ≤ App.bestFieldsScore [(3:ℚ), 1] :=
  ⟨by simp,
    (lexical_fields_identical_boosts_ordered "toys" [1] 5).2.2.2.2.2.2.2
      [(3:ℚ), 1] 3 (by simp)⟩

/-- Python renders the price fallback 0 as "0.00" under `:.2f`. -/
theorem format2f_zero : format2f 0 = "0.00" := by
  unfold format2f
  rw [show (round ((0:ℚ) * 100)).toNat = 0 by norm_num]
  rfl

set_option maxRecDepth 4096 in
/-- C8: a raw hit lacking a price renders the numeric fallback 0 as
"$0.00" (an ordinary success, not an error or an absent field), and a
raw hit lacking brand or category renders the sentinel "N/A". -/
theorem missing_fields_normalize_to_sentinels :
    priceValue none = 0 ∧ priceCaption none = "$0.00" ∧
    renderBrand none = "N/A" ∧ renderCategory none = "N/A" := by
  refine ⟨rfl, ?_, rfl, rfl⟩
  show "$" ++ format2f 0 = "$0.00"
  rw [format2f_zero]
  rfl

set_option maxRecDepth 4096 in
/-- C9: a brand or category field holding the literal string "nan"
renders as the sentinel "N/A" in the single-method detail rendering,
exactly as an absent field does. -/
theorem nan_fields_render_as_sentinel :
    renderBrand (some "nan") = "N/A" ∧
    renderCategory (some "nan") = "N/A" ∧
    renderBrand (some "nan") = renderBrand none ∧
    renderCategory (some "nan") = renderCategory none :=
  ⟨rfl, rfl, rfl, rfl⟩

end App
